import Mathlib

/-!
Shallow embedding of the ManagementPortal backend (Express + Mongoose) routes,
translated from the JavaScript sources: src/server.js, src/routes/tasks.js,
the clients router and the documents router, src/middleware/upload.js.

Conventions of the embedding:
* Mongo object ids are modelled as `String`.
* A JavaScript request-body field is `Option String`; `none` models an absent
  or null field, `some s` a string value.  JavaScript truthiness of such a
  value is `isTruthy` (absent, null and the empty string are falsy).
* External library calls (date construction, hashing, file-name extension
  extraction) are passed in as function parameters collected in `JsEnv`;
  the outcome of the external messaging POST is an `Except String String`
  parameter.
* Fallible store operations that the handlers catch are modelled by the
  explicit result structures carrying the HTTP status code, the response
  payload, the resulting store contents, and the list of notification
  dispatches `(phone, message)` performed during the request.
-/

namespace MP

/-- JavaScript truthiness of an optional string field: absent, null and the
empty string are falsy; every other string is truthy. -/
def isTruthy : Option String → Bool
  | none => false
  | some s => s != ""

/-- The JavaScript expression `v || stored` for a request-body field `v` and a
stored string `stored`: the body value when truthy, the stored value otherwise. -/
def jsOr (v : Option String) (stored : String) : String :=
  if isTruthy v then v.getD stored else stored

/-- The JavaScript expression `v || null`: the value when truthy, null otherwise. -/
def jsOrNull (v : Option String) : Option String :=
  if isTruthy v then v else none

/-- External JavaScript library functions the route handlers invoke, passed as
parameters of the embedding: `new Date(s)` serialised back to the stored form,
`toLocaleDateString`, `path.extname(name).substring(1)`, and the password
hashing performed by the user-model pre-save hook. -/
structure JsEnv where
  parseDate : String → String
  toLocaleDateString : String → String
  extname : String → String
  hash : String → String

/-- The identity environment, used to evaluate the embedding on concrete inputs. -/
def idEnv : JsEnv := ⟨id, id, id, id⟩

/-- A user record (the User collection).  The schema fields follow the data
model: id, name, email, password (hashed), phone, role. -/
structure User where
  id : String
  name : String
  email : String
  password : String
  phone : String
  role : String
deriving Repr, DecidableEq

/-- A task record (the Task collection): title, description, client and
createdBy references, deadline, status. -/
structure Task where
  id : String
  title : String
  description : String
  client : String
  createdBy : String
  deadline : String
  status : String
deriving Repr, DecidableEq

/-- A document record (the Document collection): name, description, file
reference, file type, client and uploadedBy references, optional task. -/
structure Document where
  id : String
  name : String
  description : Option String
  fileUrl : String
  fileType : String
  client : String
  uploadedBy : String
  task : Option String
deriving Repr, DecidableEq

/-- Lookup `User.findById(oid)` over the embedded user store: `null` when the id is
absent from the body, the first record with that id otherwise. -/
def findUserById (users : List User) (oid : Option String) : Option User :=
  match oid with
  | none => none
  | some i => users.find? (fun u => u.id == i)

/-- Persistence step `doc.save()`: writes the (mutated) record back into the store by id. -/
def saveTask (tasks : List Task) (t : Task) : List Task :=
  tasks.map (fun x => if x.id == t.id then t else x)

/-- Persistence step `client.save()` for a user record. -/
def saveUser (users : List User) (u : User) : List User :=
  users.map (fun x => if x.id == u.id then u else x)

/-- The WhatsApp notification helper (src/routes/tasks.js lines 9-21): the
axios POST outcome is the parameter; a failure is caught, logged and turned
into a null return value, so the helper itself never raises. -/
def sendWhatsAppNotification (outcome : Except String String) :
    Except String (Option String) :=
  match outcome with
  | Except.ok d => Except.ok (some d)
  | Except.error _ => Except.ok none

/-- Result of GET /api/tasks (src/routes/tasks.js lines 26-43): an admin gets
every task, any other role gets the tasks whose client reference equals the
caller id. -/
def getTasks (user : User) (tasks : List Task) : List Task :=
  if user.role == "admin" then tasks
  else tasks.filter (fun t => t.client == user.id)

/-- Result of GET /api/documents (documents router lines 29-48): an admin gets
every document, any other role gets the documents whose client reference
equals the caller id. -/
def getDocuments (user : User) (docs : List Document) : List Document :=
  if user.role == "admin" then docs
  else docs.filter (fun d => d.client == user.id)

/-- Request body of PUT /api/tasks/:id. -/
structure TaskUpdateBody where
  title : Option String
  description : Option String
  status : Option String
  deadline : Option String
  clientId : Option String
deriving Repr, DecidableEq

/-- Result of a task-route request: HTTP status code, the task payload of a
success response, the error message of a failure response, the task store
after the request, and the notification dispatches performed. -/
structure TaskResult where
  code : Nat
  body : Option Task
  message : String
  tasks : List Task
  notifications : List (String × String)
deriving Repr, DecidableEq

/-- Tail of PUT /api/tasks/:id (src/routes/tasks.js lines 135-144): save the
mutated record, then — because the in-memory `task` document was already
mutated — test `req.body.status === completed && task.status !== completed`
against the mutated status, and notify the client when the test passes.
Reading `.phone` of a missing client would raise and be caught as a 500. -/
def finishTaskUpdate (users : List User) (tasks : List Task) (task : Task)
    (body : TaskUpdateBody) (outcome : Except String String) : TaskResult :=
  let saved := saveTask tasks task
  if body.status == some "completed" && task.status != "completed" then
    match users.find? (fun u => u.id == task.client) with
    | none => ⟨500, none, "Cannot read properties of null", saved, []⟩
    | some c =>
      match sendWhatsAppNotification outcome with
      | Except.error e =>
          ⟨500, none, e, saved, [(c.phone, "Task completed: " ++ task.title)]⟩
      | Except.ok _ =>
          ⟨200, some task, "", saved, [(c.phone, "Task completed: " ++ task.title)]⟩
  else
    ⟨200, some task, "", saved, []⟩

/-- PUT /api/tasks/:id (src/routes/tasks.js lines 103-148).  A client-role
caller may only touch the status of an owned task; any other role updates all
fields, with a 404 when a truthy clientId resolves to a missing or non-client
user. -/
def updateTask (users : List User) (tasks : List Task) (user : User)
    (taskId : String) (body : TaskUpdateBody) (env : JsEnv)
    (outcome : Except String String) : TaskResult :=
  match tasks.find? (fun t => t.id == taskId) with
  | none => ⟨404, none, "Task not found", tasks, []⟩
  | some task =>
    if user.role == "client" then
      if task.client != user.id then
        ⟨403, none, "Not authorized to update this task", tasks, []⟩
      else
        finishTaskUpdate users tasks
          { task with status := jsOr body.status task.status } body outcome
    else
      let task1 : Task :=
        { task with
          title := jsOr body.title task.title
          description := jsOr body.description task.description
          status := jsOr body.status task.status
          deadline :=
            if isTruthy body.deadline then env.parseDate (body.deadline.getD "")
            else task.deadline }
      if isTruthy body.clientId then
        match findUserById users body.clientId with
        | none => ⟨404, none, "Client not found", tasks, []⟩
        | some c =>
          if c.role != "client" then
            ⟨404, none, "Client not found", tasks, []⟩
          else
            finishTaskUpdate users tasks
              { task1 with client := body.clientId.getD "" } body outcome
      else
        finishTaskUpdate users tasks task1 body outcome

/-- POST /api/tasks (src/routes/tasks.js lines 72-98).  The authorize gate
rejects non-admin callers with 403; a clientId resolving to a missing or
non-client user yields 404 with no record created; otherwise the task is
created (status takes the schema default value pending, per the data model;
the Task schema file is not among the sources) and the client is notified. -/
def createTask (users : List User) (tasks : List Task) (user : User)
    (title description : String) (clientId : Option String) (deadline : String)
    (env : JsEnv) (newId : String) (outcome : Except String String) : TaskResult :=
  if user.role != "admin" then
    ⟨403, none, "Forbidden", tasks, []⟩
  else
    match findUserById users clientId with
    | none => ⟨404, none, "Client not found", tasks, []⟩
    | some client =>
      if client.role != "client" then
        ⟨404, none, "Client not found", tasks, []⟩
      else
        let task : Task :=
          ⟨newId, title, description, clientId.getD "", user.id,
            env.parseDate deadline, "pending"⟩
        let msg := "New task assigned: " ++ title ++ "\nDeadline: " ++
          env.toLocaleDateString deadline ++ "\nDescription: " ++ description
        match sendWhatsAppNotification outcome with
        | Except.error e =>
            ⟨500, none, e, tasks ++ [task], [(client.phone, msg)]⟩
        | Except.ok _ =>
            ⟨201, some task, "", tasks ++ [task], [(client.phone, msg)]⟩

/-! Clients router (mounted at /api/clients; every route is guarded by
`protect` and `authorize(admin)`). -/

/-- A JSON response payload: an object given by its field list, or an array of
objects. -/
inductive Json where
  | obj (fields : List (String × String))
  | arr (items : List (List (String × String)))
deriving Repr, DecidableEq

/-- Whether a JSON payload mentions a field name anywhere (in the object, or
in any element of the array). -/
def Json.hasKey : Json → String → Bool
  | Json.obj fields, k => fields.any (fun p => p.1 == k)
  | Json.arr items, k => items.any (fun fl => fl.any (fun p => p.1 == k))

/-- The field list produced by `.select(-password)` on a user record: every
schema field except password (the User schema file is not among the sources;
its fields follow the data model of the spec). -/
def userMinusPassword (u : User) : List (String × String) :=
  [("_id", u.id), ("name", u.name), ("email", u.email),
   ("phone", u.phone), ("role", u.role)]

/-- Result of a clients-route request: HTTP status code, JSON payload, and the
user store after the request. -/
structure ClientResult where
  code : Nat
  body : Json
  users : List User
deriving Repr, DecidableEq

/-- GET /api/clients: every user with role client, password field excluded. -/
def getClients (users : List User) (user : User) : ClientResult :=
  if user.role != "admin" then
    ⟨403, Json.obj [("message", "Forbidden")], users⟩
  else
    ⟨200, Json.arr ((users.filter (fun u => u.role == "client")).map
      userMinusPassword), users⟩

/-- GET /api/clients/:id: 404 when the id resolves to no user or to a
non-client user; otherwise the record with the password field excluded. -/
def getClientById (users : List User) (user : User) (id : String) : ClientResult :=
  if user.role != "admin" then
    ⟨403, Json.obj [("message", "Forbidden")], users⟩
  else
    match users.find? (fun u => u.id == id) with
    | none => ⟨404, Json.obj [("message", "Client not found")], users⟩
    | some c =>
      if c.role != "client" then
        ⟨404, Json.obj [("message", "Client not found")], users⟩
      else
        ⟨200, Json.obj (userMinusPassword c), users⟩

/-- POST /api/clients: 400 when a user with the email exists; otherwise a new
client-role user is created (password hashed by the pre-save hook) and the
response carries the literal field list _id, name, email, phone, role. -/
def createClient (users : List User) (user : User)
    (name email password phone : String) (env : JsEnv) (newId : String) :
    ClientResult :=
  if user.role != "admin" then
    ⟨403, Json.obj [("message", "Forbidden")], users⟩
  else
    match users.find? (fun u => u.email == email) with
    | some _ => ⟨400, Json.obj [("message", "Client already exists")], users⟩
    | none =>
      let c : User := ⟨newId, name, email, env.hash password, phone, "client"⟩
      ⟨201, Json.obj [("_id", c.id), ("name", c.name), ("email", c.email),
        ("phone", c.phone), ("role", c.role)], users ++ [c]⟩

/-- Request body of PUT /api/clients/:id. -/
structure ClientUpdateBody where
  name : Option String
  email : Option String
  phone : Option String
  password : Option String
deriving Repr, DecidableEq

/-- The in-place mutation PUT /api/clients/:id applies to the found record:
name, email and phone are overwritten only by truthy body values; the password
is overwritten (and hashed by the pre-save hook) only when supplied truthy. -/
def updatedClientRecord (c : User) (body : ClientUpdateBody) (env : JsEnv) : User :=
  { c with
    name := jsOr body.name c.name
    email := jsOr body.email c.email
    phone := jsOr body.phone c.phone
    password :=
      if isTruthy body.password then env.hash (body.password.getD "")
      else c.password }

/-- PUT /api/clients/:id: 404 for a missing or non-client record; otherwise
name, email and phone are overwritten only by truthy body values, password
only when supplied truthy (then hashed), and the response carries the literal
field list _id, name, email, phone, role of the saved record. -/
def updateClient (users : List User) (user : User) (id : String)
    (body : ClientUpdateBody) (env : JsEnv) : ClientResult :=
  if user.role != "admin" then
    ⟨403, Json.obj [("message", "Forbidden")], users⟩
  else
    match users.find? (fun u => u.id == id) with
    | none => ⟨404, Json.obj [("message", "Client not found")], users⟩
    | some c =>
      if c.role != "client" then
        ⟨404, Json.obj [("message", "Client not found")], users⟩
      else
        let c1 : User := updatedClientRecord c body env
        ⟨200, Json.obj [("_id", c1.id), ("name", c1.name), ("email", c1.email),
          ("phone", c1.phone), ("role", c1.role)], saveUser users c1⟩

/-- DELETE /api/clients/:id: 404 for a missing or non-client record; otherwise
`deleteOne` removes the record. -/
def deleteClient (users : List User) (user : User) (id : String) : ClientResult :=
  if user.role != "admin" then
    ⟨403, Json.obj [("message", "Forbidden")], users⟩
  else
    match users.find? (fun u => u.id == id) with
    | none => ⟨404, Json.obj [("message", "Client not found")], users⟩
    | some c =>
      if c.role != "client" then
        ⟨404, Json.obj [("message", "Client not found")], users⟩
      else
        ⟨200, Json.obj [("message", "Client removed")],
          users.eraseP (fun x => x.id == c.id)⟩

/-! File intake (src/middleware/upload.js) and POST /api/documents. -/

/-- The multer size ceiling configured in src/middleware/upload.js:
`limits: fileSize = 10 * 1024 * 1024`. -/
def maxFileSize : Nat := 10 * 1024 * 1024

/-- An uploaded file as the middleware sees it. -/
structure UploadedFile where
  originalname : String
  size : Nat
  path : String
deriving Repr, DecidableEq

/-- Middleware `upload.single(file)` with the configured limit: the multer library aborts
the request with its payload-too-large limit error when the incoming file
exceeds the ceiling, and passes the file through to the handler otherwise
(library behaviour, per the spec: a 10 MB size ceiling, larger uploads
rejected with PayloadTooLarge). -/
def uploadSingle (f : UploadedFile) : Except String UploadedFile :=
  if f.size > maxFileSize then Except.error "PayloadTooLarge"
  else Except.ok f

/-- Result of a documents-route request: HTTP status code, response message,
the document store after the request, and the notification dispatches. -/
structure DocResult where
  code : Nat
  message : String
  documents : List Document
  notifications : List (String × String)
deriving Repr, DecidableEq

/-- Body of the document-upload handler after the file middleware accepted the
file (documents router, disk variant, lines 78-123): an admin must name an
existing client-role user and a notification is sent when that client is not
the admin; a non-admin uploads for themselves with no notification. -/
def postDocumentHandler (users : List User) (docs : List Document) (user : User)
    (f : UploadedFile) (name description clientId taskId : Option String)
    (env : JsEnv) (newId : String) (outcome : Except String String) : DocResult :=
  let mkDoc : User → Document := fun c =>
    ⟨newId, jsOr name f.originalname, description, f.path,
      env.extname f.originalname, c.id, user.id, jsOrNull taskId⟩
  if user.role == "admin" then
    if !(isTruthy clientId) then
      ⟨400, "Please specify a client", docs, []⟩
    else
      match findUserById users clientId with
      | none => ⟨404, "Client not found", docs, []⟩
      | some c =>
        if c.role != "client" then
          ⟨404, "Client not found", docs, []⟩
        else
          let d := mkDoc c
          if c.id != user.id then
            match sendWhatsAppNotification outcome with
            | Except.error e =>
                ⟨500, e, docs ++ [d],
                  [(c.phone, "New document uploaded: " ++ d.name)]⟩
            | Except.ok _ =>
                ⟨201, "", docs ++ [d],
                  [(c.phone, "New document uploaded: " ++ d.name)]⟩
          else
            ⟨201, "", docs ++ [d], []⟩
  else
    ⟨201, "", docs ++ [mkDoc user], []⟩

/-- POST /api/documents end to end: the file middleware runs first; a limit
error never reaches the handler and is turned into a 500 response by the
generic error middleware of src/server.js (lines 90-111); a missing file field
yields 400 from the handler. -/
def postDocument (users : List User) (docs : List Document) (user : User)
    (file : Option UploadedFile) (name description clientId taskId : Option String)
    (env : JsEnv) (newId : String) (outcome : Except String String) : DocResult :=
  match file with
  | none => ⟨400, "Please upload a file", docs, []⟩
  | some f =>
    match uploadSingle f with
    | Except.error _ => ⟨500, "Something went wrong!", docs, []⟩
    | Except.ok f => postDocumentHandler users docs user f name description
        clientId taskId env newId outcome

/-! HTTP entrypoint connection state (src/server.js lines 20-66). -/

/-- The in-process database connection state: the module-level `isConnected`
flag and the driver readyState (1 means connected). -/
structure DbState where
  isConnected : Bool
  readyState : Nat
deriving Repr, DecidableEq

/-- The cold start state: flag unset, driver disconnected. -/
def coldState : DbState := ⟨false, 0⟩

/-- Function `connectDB` (src/server.js lines 20-36): attempts the driver connection;
on success the driver becomes ready; on failure the error is caught and
logged and the function returns normally, leaving the driver state as it was. -/
def connectDB (st : DbState) (succeeds : Bool) : DbState :=
  if succeeds then { st with readyState := 1 } else st

/-- Result of one pass through the connection middleware: the state afterwards,
whether a connection attempt was made during this request, and the early
response (none means `next()` was called and the request proceeded). -/
structure MwResult where
  state : DbState
  attempted : Bool
  response : Option Nat
deriving Repr, DecidableEq

/-- Middleware `connectToDatabase` (src/server.js lines 44-63): skip when `isConnected`
is set; otherwise, when the driver is not ready, run `connectDB` (which never
throws) and set `isConnected` unconditionally; the catch branch is
unreachable. -/
def connectToDatabase (st : DbState) (succeeds : Bool) : MwResult :=
  if st.isConnected then
    ⟨st, false, none⟩
  else
    if st.readyState != 1 then
      let st1 := connectDB st succeeds
      ⟨{ st1 with isConnected := true }, true, none⟩
    else
      ⟨st, false, none⟩

/-! Sample records used to evaluate the embedding on concrete inputs. -/

/-- A sample admin user. -/
def wAdmin : User := ⟨"u1", "Ada", "ada@x.com", "h1", "+15550001", "admin"⟩

/-- A sample client user. -/
def wClient : User := ⟨"u2", "Cli", "cli@x.com", "h2", "+15550002", "client"⟩

/-- A second sample client user. -/
def wClient2 : User := ⟨"u3", "Dee", "dee@x.com", "h3", "+15550003", "client"⟩

/-- A sample pending task owned by `wClient`. -/
def wTask : Task := ⟨"t1", "Audit", "Q3 audit", "u2", "u1", "2026-01-01", "pending"⟩

/-- A sample task owned by `wClient2`. -/
def wTask2 : Task := ⟨"t2", "Filing", "GST filing", "u3", "u1", "2026-02-01", "pending"⟩

/-- A sample document owned by `wClient`. -/
def wDoc : Document :=
  ⟨"d1", "report.pdf", some "report", "uploads/report.pdf", "pdf", "u2", "u1", none⟩

/-- A sample document owned by `wClient2`. -/
def wDoc2 : Document :=
  ⟨"d2", "gst.pdf", none, "uploads/gst.pdf", "pdf", "u3", "u1", none⟩

/-! Helper lemmas. -/

/-- After `task.status = req.body.status || task.status`, the guard
`req.body.status === completed && task.status !== completed` of the
notification block can never hold: a body status equal to completed forces the
mutated status to completed. -/
theorem completion_check_false (s : Option String) (st : String) :
    (s == some "completed" && jsOr s st != "completed") = false := by
  cases s with
  | none => rfl
  | some str =>
    by_cases h : str = "completed"
    · subst h; rfl
    · simp [h]

/-- When the notification guard is false, the tail of the task update saves the
record, responds 200, and dispatches nothing. -/
theorem finishTaskUpdate_of_guard_false (users : List User) (tasks : List Task)
    (task : Task) (body : TaskUpdateBody) (o : Except String String)
    (h : (body.status == some "completed" && task.status != "completed") = false) :
    finishTaskUpdate users tasks task body o =
      ⟨200, some task, "", saveTask tasks task, []⟩ := by
  simp [finishTaskUpdate, h]

/-- Claim C1 (code evaluated at the failing input): a client marks their
pending task completed; the response is 200, the persisted status becomes
completed, yet the notification dispatcher is never invoked — the guard in
PUT /api/tasks/:id compares the body status against the already mutated
record status, so the claimed single dispatch does not happen. -/
theorem C1_completed_update_dispatches_nothing :
    (updateTask [wAdmin, wClient] [wTask] wClient "t1"
      ⟨none, none, some "completed", none, none⟩ idEnv (Except.ok "sent")).code
        = 200 ∧
    (updateTask [wAdmin, wClient] [wTask] wClient "t1"
      ⟨none, none, some "completed", none, none⟩ idEnv (Except.ok "sent")).tasks
        = [{ wTask with status := "completed" }] ∧
    (updateTask [wAdmin, wClient] [wTask] wClient "t1"
      ⟨none, none, some "completed", none, none⟩ idEnv (Except.ok "sent")).notifications
        = [] := by
  decide

/-- Claim C2: when a client-role user updates a task they own, the persisted
record differs from the stored one in at most the status field — the new
store is the old store with the record written back carrying only a possibly
new status, whatever other fields the request body supplies. -/
theorem C2_client_update_touches_only_status
    (users : List User) (tasks : List Task) (user : User) (taskId : String)
    (body : TaskUpdateBody) (env : JsEnv) (o : Except String String) (t : Task)
    (hrole : user.role = "client")
    (hfind : tasks.find? (fun x => x.id == taskId) = some t)
    (hown : t.client = user.id) :
    (updateTask users tasks user taskId body env o).tasks =
      saveTask tasks { t with status := jsOr body.status t.status } := by
  unfold updateTask
  rw [hfind]
  simp only [hrole, hown, beq_self_eq_true, bne_self_eq_false, if_true,
    Bool.false_eq_true, if_false]
  rw [finishTaskUpdate_of_guard_false _ _ _ _ _ (completion_check_false _ _)]

/-- Witness for C2: a concrete owned task updated by its client with every
field supplied; only the status is written. -/
theorem C2_witness :
    (updateTask [wAdmin, wClient] [wTask] wClient "t1"
      ⟨some "HACK", some "X", some "in-progress", some "2030-01-01", some "u3"⟩
      idEnv (Except.ok "sent")).tasks =
      saveTask [wTask] { wTask with status := jsOr (some "in-progress") wTask.status } :=
  C2_client_update_touches_only_status [wAdmin, wClient] [wTask] wClient "t1"
    ⟨some "HACK", some "X", some "in-progress", some "2030-01-01", some "u3"⟩
    idEnv (Except.ok "sent") wTask rfl (by decide) rfl

/-- Claim C3: for a non-admin caller, the task list and the document list are
exactly the records whose client reference equals the caller id — the
responses equal the stores filtered by that condition, so no foreign record
appears and no owned record is missing. -/
theorem C3_nonadmin_lists_scoped_to_self
    (user : User) (tasks : List Task) (docs : List Document)
    (hrole : user.role ≠ "admin") :
    getTasks user tasks = tasks.filter (fun t => t.client == user.id) ∧
    getDocuments user docs = docs.filter (fun d => d.client == user.id) := by
  constructor <;> simp [getTasks, getDocuments, hrole]

/-- Witness for C3: a client listing tasks and documents over stores holding
both an owned and a foreign record receives exactly the owned one. -/
theorem C3_witness :
    getTasks wClient [wTask, wTask2] =
      List.filter (fun t => t.client == wClient.id) [wTask, wTask2] ∧
    getDocuments wClient [wDoc, wDoc2] =
      List.filter (fun d => d.client == wClient.id) [wDoc, wDoc2] :=
  C3_nonadmin_lists_scoped_to_self wClient [wTask, wTask2] [wDoc, wDoc2] (by decide)

/-- The field list of a password-stripped user record never mentions the
password key. -/
theorem userMinusPassword_no_password (u : User) :
    (userMinusPassword u).any (fun p => p.1 == "password") = false := by
  rfl

/-- Claim C4: no response of the client resource handlers — list, get-by-id,
create, update — carries a password field, for every store, caller, body and
environment. -/
theorem C4_client_responses_have_no_password
    (users : List User) (user : User) (id name email password phone : String)
    (body : ClientUpdateBody) (env : JsEnv) (newId : String) :
    Json.hasKey (getClients users user).body "password" = false ∧
    Json.hasKey (getClientById users user id).body "password" = false ∧
    Json.hasKey (createClient users user name email password phone env newId).body
      "password" = false ∧
    Json.hasKey (updateClient users user id body env).body "password" = false := by
  refine ⟨?_, ?_, ?_, ?_⟩
  · unfold getClients
    split
    · rfl
    · simp only [Json.hasKey, List.any_map, Function.comp_def,
        userMinusPassword_no_password]
      simp
      intro x u _ _ hx v
      subst hx
      simp [userMinusPassword]
  · unfold getClientById
    split
    · rfl
    · split
      · rfl
      · split
        · rfl
        · exact userMinusPassword_no_password _
  · unfold createClient
    split
    · rfl
    · split
      · rfl
      · rfl
  · unfold updateClient
    split
    · rfl
    · split
      · rfl
      · split
        · rfl
        · rfl

/-- Claim C5: a task-creation request by an admin whose clientId resolves to
no user, or to a user whose role is not client, yields 404 Client not found,
an unchanged task store, and no notification dispatch. -/
theorem C5_create_task_rejects_bad_client
    (users : List User) (tasks : List Task) (user : User)
    (title description : String) (clientId : Option String) (deadline : String)
    (env : JsEnv) (newId : String) (o : Except String String)
    (hrole : user.role = "admin")
    (hbad : ∀ u, findUserById users clientId = some u → u.role ≠ "client") :
    createTask users tasks user title description clientId deadline env newId o =
      ⟨404, none, "Client not found", tasks, []⟩ := by
  unfold createTask
  simp only [hrole, bne_self_eq_false, Bool.false_eq_true, if_false]
  cases h : findUserById users clientId with
  | none => rfl
  | some u =>
    have := hbad u h
    simp [this]

/-- Witness for C5: the admin names their own (non-client) account as the
clientId; the request is rejected 404 with no record created and no dispatch. -/
theorem C5_witness :
    createTask [wAdmin, wClient] [] wAdmin "T" "D" (some "u1") "2026-03-01"
      idEnv "t9" (Except.ok "sent") = ⟨404, none, "Client not found", [], []⟩ :=
  C5_create_task_rejects_bad_client [wAdmin, wClient] [] wAdmin "T" "D"
    (some "u1") "2026-03-01" idEnv "t9" (Except.ok "sent") rfl
    (by
      intro u h
      rw [show findUserById [wAdmin, wClient] (some "u1") = some wAdmin from rfl] at h
      injection h with h
      subst h
      decide)

/-- Claim C6: an uploaded file strictly larger than the 10 MB ceiling is
stopped by the file middleware with its payload-too-large error — the handler
never runs and the document store is unchanged (the generic error middleware
turns the error into a 500 response) — while a file at or under the ceiling
passes the size limit. -/
theorem C6_upload_size_ceiling
    (users : List User) (docs : List Document) (user : User) (f : UploadedFile)
    (name description clientId taskId : Option String) (env : JsEnv)
    (newId : String) (o : Except String String) :
    (f.size > maxFileSize →
      uploadSingle f = Except.error "PayloadTooLarge" ∧
      postDocument users docs user (some f) name description clientId taskId
        env newId o = ⟨500, "Something went wrong!", docs, []⟩) ∧
    (f.size ≤ maxFileSize → uploadSingle f = Except.ok f) := by
  constructor
  · intro h
    have hu : uploadSingle f = Except.error "PayloadTooLarge" := by
      simp [uploadSingle, h]
    exact ⟨hu, by simp [postDocument, hu]⟩
  · intro h
    simp [uploadSingle, Nat.not_lt.mpr h]

/-- Witness for C6: a file one byte over the ceiling is rejected with the
store unchanged, and a file of exactly 10 MB passes the size limit. -/
theorem C6_witness :
    (uploadSingle ⟨"big.pdf", 10485761, "uploads/big.pdf"⟩ =
        Except.error "PayloadTooLarge" ∧
      postDocument [wAdmin, wClient] [wDoc] wAdmin
        (some ⟨"big.pdf", 10485761, "uploads/big.pdf"⟩) none none (some "u2")
        none idEnv "d9" (Except.ok "sent") =
        ⟨500, "Something went wrong!", [wDoc], []⟩) ∧
    uploadSingle ⟨"ok.pdf", 10485760, "uploads/ok.pdf"⟩ =
      Except.ok ⟨"ok.pdf", 10485760, "uploads/ok.pdf"⟩ :=
  ⟨(C6_upload_size_ceiling [wAdmin, wClient] [wDoc] wAdmin
      ⟨"big.pdf", 10485761, "uploads/big.pdf"⟩ none none (some "u2") none idEnv
      "d9" (Except.ok "sent")).1 (by decide),
   (C6_upload_size_ceiling [wAdmin, wClient] [wDoc] wAdmin
      ⟨"ok.pdf", 10485760, "uploads/ok.pdf"⟩ none none (some "u2") none idEnv
      "d9" (Except.ok "sent")).2 (by decide)⟩

/-- Claim C7 (code evaluated at the failing input): from the cold state, a
request whose connection attempt fails still sets the cached `isConnected`
flag, so the next request — whose attempt would succeed — skips the
reconnection attempt entirely and proceeds with the driver still not ready.
The claimed demand-driven retry after a failed attempt does not happen. -/
theorem C7_failed_attempt_disables_reconnection :
    (connectToDatabase coldState false).attempted = true ∧
    (connectToDatabase coldState false).state = ⟨true, 0⟩ ∧
    (connectToDatabase (connectToDatabase coldState false).state true).attempted
      = false ∧
    (connectToDatabase (connectToDatabase coldState false).state true).state.readyState
      ≠ 1 := by
  decide

/-- Claim C8: the notification dispatcher returns normally on every outcome of
the external POST, and no enclosing handler result — task creation, task
update, document upload — depends on that outcome: the responses, stores and
dispatch lists are identical for any two outcomes. -/
theorem C8_notification_failure_is_swallowed (o o2 : Except String String) :
    (∃ v, sendWhatsAppNotification o = Except.ok v) ∧
    (∀ users tasks user title description clientId deadline env newId,
      createTask users tasks user title description clientId deadline env newId o =
        createTask users tasks user title description clientId deadline env newId o2) ∧
    (∀ users tasks user taskId body env,
      updateTask users tasks user taskId body env o =
        updateTask users tasks user taskId body env o2) ∧
    (∀ users docs user file name description clientId taskId env newId,
      postDocument users docs user file name description clientId taskId env newId o =
        postDocument users docs user file name description clientId taskId env newId o2) := by
  refine ⟨?_, ?_, ?_, ?_⟩
  · cases o with
    | ok d => exact ⟨some d, rfl⟩
    | error e => exact ⟨none, rfl⟩
  · intro users tasks user title description clientId deadline env newId
    cases o <;> cases o2 <;> simp [createTask, sendWhatsAppNotification]
  · intro users tasks user taskId body env
    unfold updateTask
    cases tasks.find? (fun t => t.id == taskId) with
    | none => rfl
    | some task =>
      by_cases h1 : (user.role == "client") = true
      · simp only [h1, if_true]
        by_cases h2 : (task.client != user.id) = true
        · simp [h2]
        · simp only [h2, Bool.false_eq_true, if_false]
          rw [finishTaskUpdate_of_guard_false _ _ _ _ _ (completion_check_false _ _),
            finishTaskUpdate_of_guard_false _ _ _ _ _ (completion_check_false _ _)]
      · simp only [h1, Bool.false_eq_true, if_false]
        by_cases h3 : isTruthy body.clientId = true
        · simp only [h3, if_true]
          cases findUserById users body.clientId with
          | none => rfl
          | some c =>
            by_cases h4 : (c.role != "client") = true
            · simp [h4]
            · simp only [h4, Bool.false_eq_true, if_false]
              rw [finishTaskUpdate_of_guard_false _ _ _ _ _ (completion_check_false _ _),
                finishTaskUpdate_of_guard_false _ _ _ _ _ (completion_check_false _ _)]
        · simp only [h3, Bool.false_eq_true, if_false]
          rw [finishTaskUpdate_of_guard_false _ _ _ _ _ (completion_check_false _ _),
            finishTaskUpdate_of_guard_false _ _ _ _ _ (completion_check_false _ _)]
  · intro users docs user file name description clientId taskId env newId
    cases file with
    | none => rfl
    | some f =>
      cases o <;> cases o2 <;>
        simp [postDocument, postDocumentHandler, sendWhatsAppNotification, uploadSingle]

/-- Claim C10: when an id resolves to an existing user whose role is not
client (an admin account, say), the client get-by-id, update and delete
handlers all answer 404 Client not found and leave the user store untouched,
so such accounts are unreachable through the /api/clients routes. -/
theorem C10_nonclient_accounts_unreachable
    (users : List User) (user u : User) (id : String) (body : ClientUpdateBody)
    (env : JsEnv)
    (hrole : user.role = "admin")
    (hfind : users.find? (fun x => x.id == id) = some u)
    (hu : u.role ≠ "client") :
    getClientById users user id =
      ⟨404, Json.obj [("message", "Client not found")], users⟩ ∧
    updateClient users user id body env =
      ⟨404, Json.obj [("message", "Client not found")], users⟩ ∧
    deleteClient users user id =
      ⟨404, Json.obj [("message", "Client not found")], users⟩ := by
  refine ⟨?_, ?_, ?_⟩ <;>
  · simp only [getClientById, updateClient, deleteClient]
    simp only [hrole, bne_self_eq_false, Bool.false_eq_true, if_false]
    rw [hfind]
    simp [hu]

/-- Witness for C10: the admin account itself is the target id; all three
handlers answer 404 and the store is unchanged. -/
theorem C10_witness :
    getClientById [wAdmin, wClient] wAdmin "u1" =
      ⟨404, Json.obj [("message", "Client not found")], [wAdmin, wClient]⟩ ∧
    updateClient [wAdmin, wClient] wAdmin "u1" ⟨some "X", none, none, none⟩ idEnv =
      ⟨404, Json.obj [("message", "Client not found")], [wAdmin, wClient]⟩ ∧
    deleteClient [wAdmin, wClient] wAdmin "u1" =
      ⟨404, Json.obj [("message", "Client not found")], [wAdmin, wClient]⟩ :=
  C10_nonclient_accounts_unreachable [wAdmin, wClient] wAdmin wAdmin "u1"
    ⟨some "X", none, none, none⟩ idEnv rfl (by decide) (by decide)

end MP
